import Mathlib

/-!
# Verification of the photon-docker update pipeline

A shallow embedding of `src/downloader.py` and `src/entrypoint.py` of the
photon-docker repository, together with proofs about the disk-space budget,
the resumable download state, the retry loop, and the orchestration of the
update workflow.

Filesystem interaction (`os.statvfs`, `os.path.exists`, `os.path.getsize`,
sidecar JSON files) is modelled by explicit state values passed to the
embedded functions; external collaborator modules that are not part of the
repository sources (`src.check_remote`, `src.filesystem`) appear as
outcome parameters of the orchestrator environment, following the
external-interfaces section of the spec.
-/

namespace PhotonDocker

/-! ## Disk budget (`get_available_space`, `check_disk_space_requirements`) -/

/-- Embeds `get_available_space` (downloader.py lines 25-30).  The
`os.statvfs` call either returns a pair `(f_frsize, f_bavail)` or raises
(`OSError`/`AttributeError`), modelled by `none`; in the latter case the
function returns `0` instead of propagating the error. -/
def get_available_space (statvfsResult : Option (Nat × Nat)) : Nat :=
  match statvfsResult with
  | some r => r.1 * r.2
  | none => 0

/-- The extracted-size estimate `int(download_size * 1.63)` from
`check_disk_space_requirements` (downloader.py line 40), modelled in exact
arithmetic as the truncated product `163 * n / 100` (Nat division is the
floor; IEEE-754 rounding of the Python float product can shift the result
by one unit for some inputs, e.g. `300 * 1.63` rounds below `489`). -/
def extracted_size (download_size : Nat) : Nat :=
  download_size * 163 / 100

/-- Embeds `check_disk_space_requirements` (downloader.py lines 33-82).
The two `get_available_space` probes are passed in as `temp_available` and
`data_available`; the `total_needed = int(download_size * 1.7)` figure of
line 45 is only logged by the source and does not influence the result. -/
def check_disk_space_requirements (download_size temp_available data_available : Nat)
    (is_parallel : Bool) : Bool :=
  let compressed_size := download_size
  let extracted := extracted_size download_size
  if is_parallel then
    let temp_needed := compressed_size + extracted
    let data_needed := extracted
    if temp_available < temp_needed then false
    else if data_available < data_needed then false
    else true
  else
    let temp_needed := compressed_size + extracted
    if temp_available < temp_needed then false
    else true

/-! ## Transfer state (`load_download_state`, `cleanup_download_state`,
`_prepare_download`) -/

/-- The sidecar record written by `save_download_state`
(downloader.py lines 89-102): the JSON object
`{url, destination, downloaded_bytes, total_size, file_size}`. -/
structure DownloadState where
  url : String
  destination : String
  downloaded_bytes : Nat
  total_size : Nat
  file_size : Nat
deriving DecidableEq, Repr

/-- The on-disk condition of the sidecar `<destination>.download_state`
file: absent, present but unparseable (`json.load` raises), or present
with a parsed record. -/
inductive Sidecar
  | missing
  | corrupt
  | valid (s : DownloadState)
deriving DecidableEq, Repr

/-- The filesystem facts `load_download_state` consults for one
destination: the sidecar file and the size of the destination file
(`none` when `os.path.exists(destination)` is false). -/
structure FS where
  sidecar : Sidecar
  destSize : Option Nat
deriving DecidableEq, Repr

/-- Embeds `cleanup_download_state` (downloader.py lines 132-138):
idempotent removal of the sidecar file. -/
def cleanup_download_state (fs : FS) : FS :=
  { fs with sidecar := Sidecar.missing }

/-- Embeds `load_download_state` (downloader.py lines 105-129).  Returns
the loaded state (`none` for the empty dict `{}`) together with the
filesystem after the call (the sidecar may have been deleted via
`cleanup_download_state`).  A corrupt sidecar raises inside the `try`,
hitting the `except` branch of lines 125-127.  When the destination file
does not exist, the body of the `if os.path.exists(destination)` block is
skipped and the function falls through to `return {}` without cleanup. -/
def load_download_state (fs : FS) : Option DownloadState × FS :=
  match fs.sidecar with
  | Sidecar.missing => (none, fs)
  | Sidecar.corrupt => (none, cleanup_download_state fs)
  | Sidecar.valid s =>
    match fs.destSize with
    | some actual =>
      if s.file_size ≤ actual then
        (some { s with file_size := actual, downloaded_bytes := actual }, fs)
      else
        (none, cleanup_download_state fs)
    | none => (none, fs)

/-- File-open mode chosen by `_prepare_download`: `"wb"` or `"ab"`. -/
inductive Mode
  | wb
  | ab
deriving DecidableEq, Repr

/-- Embeds `_prepare_download` (downloader.py lines 330-342): loads the
state, and when it is non-empty with a matching url takes its
`downloaded_bytes` as the resume position, switching to append mode only
when the position is positive and the destination file exists. -/
def prepare_download (fs : FS) (url : String) : Nat × Mode × FS :=
  let r := load_download_state fs
  match r.1 with
  | some s =>
    if s.url = url then
      let resume_byte_pos := s.downloaded_bytes
      if 0 < resume_byte_pos ∧ r.2.destSize.isSome then (resume_byte_pos, Mode.ab, r.2)
      else (resume_byte_pos, Mode.wb, r.2)
    else (0, Mode.wb, r.2)
  | none => (0, Mode.wb, r.2)

/-! ## Range probe (`supports_range_requests`) -/

/-- The reply to the `requests.head` probe: its status code and the value
of the `accept-ranges` header (`none` when the header is absent; header
*name* lookup in `requests` is case-insensitive, so only the value
matters). -/
structure HeadResponse where
  status : Nat
  acceptRanges : Option String
deriving DecidableEq, Repr

/-- ASCII lowercasing of one character: `str.lower` restricted to the
ASCII range, which is the character range HTTP header values such as
`accept-ranges: bytes` use. -/
def lower_char (c : Char) : Char :=
  if 65 ≤ c.toNat ∧ c.toNat ≤ 90 then Char.ofNat (c.toNat + 32) else c

/-- ASCII lowercasing of a string, modelling the `.lower()` call on the
header value in `supports_range_requests`. -/
def lower_string (s : String) : String :=
  String.mk (s.data.map lower_char)

/-- Embeds `supports_range_requests` (downloader.py lines 141-148).
`none` models a request that raises (timeout, connection failure, …);
`response.raise_for_status()` raises exactly when the status code is in
`400..599`; every raise is caught by the `except` and turned into
`false`, so the embedded function is total — it never raises. -/
def supports_range_requests (resp : Option HeadResponse) : Bool :=
  match resp with
  | none => false
  | some r =>
    if 400 ≤ r.status ∧ r.status < 600 then false
    else lower_string (r.acceptRanges.getD "") == "bytes"

/-! ## Download completion (`_perform_download` lines 486-496) -/

/-- The observable actions of the completion path of `_perform_download`:
the final `save_download_state`, the `raise Exception("Download
incomplete…")`, the `cleanup_download_state`, and the `return True`. -/
inductive DlAct
  | save
  | raiseIncomplete
  | cleanup
  | returnTrue
deriving DecidableEq, Repr

/-- Embeds the completion path of `_perform_download` (downloader.py
lines 486-496), entered when `_download_content` has returned
`downloaded` bytes for a transfer whose computed total is `total_size`
(`0` = unknown): a final `save_download_state`, then either the
incomplete-download exception (leaving the sidecar in place) or
`cleanup_download_state` followed by `return True`. -/
def perform_download_completion (total_size downloaded : Nat) : List DlAct :=
  DlAct.save ::
    (if 0 < total_size ∧ downloaded < total_size then [DlAct.raiseIncomplete]
     else [DlAct.cleanup, DlAct.returnTrue])

/-! ## Retry loop (`download_file`) -/

/-- Outcome of one call to `_perform_download` inside `download_file`:
it returns `True`, raises a `RequestException`, or raises any other
exception (e.g. the incomplete-download `Exception`). -/
inductive AttemptOutcome
  | success
  | transportError
  | otherError
deriving DecidableEq, Repr

/-- The body of the `for attempt in range(max_retries)` loop of
`download_file` (downloader.py lines 507-527), over the list of remaining
attempt indices.  `outcomes i` is what `_perform_download` does on
attempt `i`.  Returns the overall boolean result together with the list
of backoff waits (in seconds, `2 ** attempt`) performed between
attempts.  A `RequestException` on the last attempt (`attempt =
max_retries - 1`) returns `False` without waiting; any other exception
returns `False` immediately; an empty range falls through to the final
`return False`. -/
def download_file_go (outcomes : Nat → AttemptOutcome) (max_retries : Nat) :
    List Nat → Bool × List Nat
  | [] => (false, [])
  | attempt :: rest =>
    match outcomes attempt with
    | AttemptOutcome.success => (true, [])
    | AttemptOutcome.otherError => (false, [])
    | AttemptOutcome.transportError =>
      if attempt < max_retries - 1 then
        let r := download_file_go outcomes max_retries rest
        (r.1, 2 ^ attempt :: r.2)
      else (false, [])

/-- Embeds `download_file` (downloader.py lines 503-527): the retry loop
over `range(max_retries)`. -/
def download_file (max_retries : Nat) (outcomes : Nat → AttemptOutcome) :
    Bool × List Nat :=
  download_file_go outcomes max_retries (List.range max_retries)

/-! ## Update orchestration (`parallel_update`, `sequential_update`, `main`)

The two update functions drive external collaborators (`download_file` via
`download_index`/`download_md5`, and `extract_index`, `verify_checksum`,
`move_index`, `clear_temp_dir` from the `src.filesystem` module, which is
not part of the repository sources).  Each collaborator call is modelled
by a boolean outcome in `Env` plus an event appended to a trace; the
remote-size probe `get_remote_file_size` (from `src.check_remote`,
likewise external, `0` = undeterminable per the spec) is `remoteSize`. -/

/-- The steps of the update workflow recorded in the trace, in the order
they are attempted. -/
inductive Ev
  | spaceCheck
  | downloadIndex
  | extractIndex
  | downloadMd5
  | verifyChecksum
  | moveIndex
  | clearTemp
deriving DecidableEq, Repr

/-- The Python exceptions the orchestrator distinguishes:
`InsufficientSpaceError` (downloader.py lines 18-19) versus every other
`Exception`. -/
inductive PyExc
  | insufficientSpace
  | generic
deriving DecidableEq, Repr

/-- Collaborator outcomes for one run of an update function.
`remoteSize` is the `get_remote_file_size` result; `tempAvail` /
`dataAvail` are the two `get_available_space` probes made inside
`check_disk_space_requirements`; `skipMd5` is `config.SKIP_MD5_CHECK`;
the remaining booleans say whether the corresponding step succeeds
(a `false` step raises an exception in the source). -/
structure Env where
  tempDirExists : Bool
  rmTempOk : Bool
  resolveOk : Bool
  remoteSize : Nat
  tempAvail : Nat
  dataAvail : Nat
  skipMd5 : Bool
  downloadIndexOk : Bool
  extractOk : Bool
  downloadMd5Ok : Bool
  checksumOk : Bool
  moveOk : Bool
  clearOk : Bool
deriving DecidableEq, Repr

/-- The trace contribution of the remote-size probe: the space check is
attempted exactly when `get_remote_file_size` returned a positive size
(downloader.py lines 197-202 and 251-256). -/
def size_check_trace (remoteSize : Nat) : List Ev :=
  if 0 < remoteSize then [Ev.spaceCheck] else []

/-- The tail of both update functions: `move_index()` then
`clear_temp_dir()` (downloader.py lines 218-220 and 270-273). -/
def publish_steps (tr : List Ev) (env : Env) : List Ev × Option PyExc :=
  if !env.moveOk then (tr ++ [Ev.moveIndex], some PyExc.generic)
  else if !env.clearOk then (tr ++ [Ev.moveIndex, Ev.clearTemp], some PyExc.generic)
  else (tr ++ [Ev.moveIndex, Ev.clearTemp], none)

/-- The shared `try`-block body of `parallel_update` (downloader.py lines
181-222) and `sequential_update` (lines 233-275); the two differ only in
the `is_parallel` flag passed to `check_disk_space_requirements` and in
log strings.  Returns the trace of attempted steps and the exception that
escapes the body, if any: temp-dir removal failure re-raises (lines
187-189); `get_download_url` raises `ValueError` on an unknown region
(`resolveOk`); a known positive remote size triggers the space check,
whose failure raises `InsufficientSpaceError` (lines 197-200); then
`download_index`, `extract_index`, the optional md5 download and
`verify_checksum`, and finally `move_index` / `clear_temp_dir`. -/
def update_body (env : Env) (is_parallel : Bool) : List Ev × Option PyExc :=
  if env.tempDirExists && !env.rmTempOk then ([], some PyExc.generic)
  else if !env.resolveOk then ([], some PyExc.generic)
  else if 0 < env.remoteSize &&
      !check_disk_space_requirements env.remoteSize env.tempAvail env.dataAvail is_parallel then
    ([Ev.spaceCheck], some PyExc.insufficientSpace)
  else if !env.downloadIndexOk then
    (size_check_trace env.remoteSize ++ [Ev.downloadIndex], some PyExc.generic)
  else if !env.extractOk then
    (size_check_trace env.remoteSize ++ [Ev.downloadIndex, Ev.extractIndex], some PyExc.generic)
  else if env.skipMd5 then
    publish_steps (size_check_trace env.remoteSize ++ [Ev.downloadIndex, Ev.extractIndex]) env
  else if !env.downloadMd5Ok then
    (size_check_trace env.remoteSize ++ [Ev.downloadIndex, Ev.extractIndex, Ev.downloadMd5],
      some PyExc.generic)
  else if !env.checksumOk then
    (size_check_trace env.remoteSize ++
        [Ev.downloadIndex, Ev.extractIndex, Ev.downloadMd5, Ev.verifyChecksum],
      some PyExc.generic)
  else
    publish_steps
      (size_check_trace env.remoteSize ++
        [Ev.downloadIndex, Ev.extractIndex, Ev.downloadMd5, Ev.verifyChecksum]) env

/-- How an update function terminates: a normal return, a `sys.exit(code)`
(the `SystemExit` propagates, being a `BaseException`), or a Python
exception escaping to the caller. -/
inductive FnOutcome
  | completed
  | exited (code : Nat)
  | raised (e : PyExc)
deriving DecidableEq, Repr

/-- The `try … except Exception: sys.exit(1)` wrapper shared by
`parallel_update` (downloader.py lines 224-227) and `sequential_update`
(lines 277-280): *every* exception raised in the body — including
`InsufficientSpaceError`, a subclass of `Exception` — is caught here and
converted into `sys.exit(1)`, so no exception ever reaches the caller. -/
def run_update (env : Env) (is_parallel : Bool) : List Ev × FnOutcome :=
  let r := update_body env is_parallel
  match r.2 with
  | none => (r.1, FnOutcome.completed)
  | some _ => (r.1, FnOutcome.exited 1)

/-- Embeds `parallel_update` (downloader.py lines 178-227). -/
def parallel_update (env : Env) : List Ev × FnOutcome :=
  run_update env true

/-- Embeds `sequential_update` (downloader.py lines 230-280). -/
def sequential_update (env : Env) : List Ev × FnOutcome :=
  run_update env false

/-- The configuration flags `main` branches on (entrypoint.py):
`FORCE_UPDATE`, `UPDATE_STRATEGY == "PARALLEL"`, whether
`config.OS_NODE_DIR` exists, and `INITIAL_DOWNLOAD`. -/
structure Cfg where
  forceUpdate : Bool
  strategyParallel : Bool
  osNodeDirExists : Bool
  initialDownload : Bool
deriving DecidableEq, Repr

/-- How `main` terminates: a normal return, `sys.exit(code)`, or an
exception propagating out of `main`. -/
inductive MainOutcome
  | returned
  | exited (code : Nat)
  | raisedOut (e : PyExc)
deriving DecidableEq, Repr

/-- The exception handling `main` wraps around an update call
(entrypoint.py lines 42-53 and 60-65): `except InsufficientSpaceError`
exits with code 75; in the force-update branch `except Exception`
re-raises, and in the initial-download branch a generic exception
propagates uncaught — observationally the same.  A `SystemExit` from
inside the update function is neither an `InsufficientSpaceError` nor an
`Exception`, so it passes through and terminates the process with its
code. -/
def handle_update_outcome (r : List Ev × FnOutcome) : List Ev × MainOutcome :=
  match r.2 with
  | FnOutcome.completed => (r.1, MainOutcome.returned)
  | FnOutcome.exited c => (r.1, MainOutcome.exited c)
  | FnOutcome.raised PyExc.insufficientSpace => (r.1, MainOutcome.exited 75)
  | FnOutcome.raised e => (r.1, MainOutcome.raisedOut e)

/-- Embeds the update-dispatch part of `main` (entrypoint.py lines
40-67), after `validate_config` has passed: the force-update branch picks
the strategy; otherwise a missing index directory triggers the initial
sequential download (unless `INITIAL_DOWNLOAD` is disabled); otherwise
nothing is downloaded. -/
def main (env : Env) (cfg : Cfg) : List Ev × MainOutcome :=
  if cfg.forceUpdate then
    handle_update_outcome
      (if cfg.strategyParallel then parallel_update env else sequential_update env)
  else if !cfg.osNodeDirExists then
    if !cfg.initialDownload then ([], MainOutcome.returned)
    else handle_update_outcome (sequential_update env)
  else ([], MainOutcome.returned)

/-- An environment in which every collaborator succeeds, the remote size
is known, space suffices, and checksum verification is enabled. -/
def envOk : Env :=
  { tempDirExists := false, rmTempOk := true, resolveOk := true,
    remoteSize := 100, tempAvail := 1000, dataAvail := 1000,
    skipMd5 := false, downloadIndexOk := true, extractOk := true,
    downloadMd5Ok := true, checksumOk := true, moveOk := true, clearOk := true }

/-- An environment whose remote size is known (100 bytes) but whose
staging and data areas report no free space, so
`check_disk_space_requirements` returns `false`. -/
def envNoSpace : Env :=
  { tempDirExists := false, rmTempOk := true, resolveOk := true,
    remoteSize := 100, tempAvail := 0, dataAvail := 0,
    skipMd5 := false, downloadIndexOk := true, extractOk := true,
    downloadMd5Ok := true, checksumOk := true, moveOk := true, clearOk := true }

/-! ## Theorems -/

/-- C3 (counterexample): the extracted-size estimate does not equal
`downloadSize * 1.63` exactly — at `downloadSize = 1` the code computes
`int(1 * 1.63) = 1`, which differs from `1.63`. -/
theorem extracted_size_not_exact :
    (extracted_size 1 : ℚ) ≠ (1 : ℚ) * (163 / 100) := by
  norm_num [extracted_size]

/-- C3 (amended): `check_disk_space_requirements` is deterministic given
fixed available-space values, and the extracted-size estimate it computes
is the integer truncation `⌊downloadSize * 1.63⌋` of the product, not the
exact product. -/
theorem check_disk_space_deterministic_floor (n t d : Nat) (p : Bool) :
    check_disk_space_requirements n t d p = check_disk_space_requirements n t d p ∧
      extracted_size n = ⌊(n : ℚ) * (163 / 100)⌋₊ := by
  refine ⟨rfl, ?_⟩
  have h : (n : ℚ) * (163 / 100) = ((n * 163 : ℕ) : ℚ) / ((100 : ℕ) : ℚ) := by
    push_cast
    ring
  rw [extracted_size, h, Nat.floor_div_eq_div]

/-- C9: when `os.statvfs` raises, `get_available_space` returns `0`
rather than raising, and therefore for every positive download size the
disk-space check returns `false` (whatever the data-area probe says and
in both modes) instead of propagating an error. -/
theorem space_probe_failure_blocks_update (n d : Nat) (p : Bool) (h : 0 < n) :
    get_available_space none = 0 ∧
      check_disk_space_requirements n (get_available_space none) d p = false := by
  refine ⟨rfl, ?_⟩
  cases p <;>
    simp only [check_disk_space_requirements, extracted_size, get_available_space] <;>
    split_ifs <;> first | rfl | omega

/-- Witness for C9 at `downloadSize = 1`. -/
theorem space_probe_failure_blocks_update_witness :
    get_available_space none = 0 ∧
      check_disk_space_requirements 1 (get_available_space none) 0 true = false :=
  space_probe_failure_blocks_update 1 0 true (by decide)

/-- C4: when the destination file exists with size `N` and the sidecar
records `file_size = M ≤ N`, `load_download_state` returns a non-empty
state whose `downloaded_bytes` (and `file_size`) equal the actual
on-disk size `N`. -/
theorem load_state_resumes_actual_size (fs : FS) (s : DownloadState) (N : Nat)
    (hside : fs.sidecar = Sidecar.valid s) (hdest : fs.destSize = some N)
    (hM : s.file_size ≤ N) :
    (load_download_state fs).1 =
      some { s with file_size := N, downloaded_bytes := N } := by
  simp [load_download_state, hside, hdest, hM]

/-- Witness for C4 with `M = 5`, `N = 7`. -/
theorem load_state_resumes_actual_size_witness :
    (load_download_state
        { sidecar := Sidecar.valid
            { url := "u", destination := "d", downloaded_bytes := 5,
              total_size := 10, file_size := 5 },
          destSize := some 7 }).1 =
      some { url := "u", destination := "d", downloaded_bytes := 7,
             total_size := 10, file_size := 7 } :=
  load_state_resumes_actual_size _ _ 7 rfl rfl (by decide)

/-- C5: when the sidecar records `file_size = M` greater than the actual
on-disk size `N`, `load_download_state` deletes the sidecar state file
and returns the empty state. -/
theorem load_state_discards_overstated (fs : FS) (s : DownloadState) (N : Nat)
    (hside : fs.sidecar = Sidecar.valid s) (hdest : fs.destSize = some N)
    (hM : N < s.file_size) :
    load_download_state fs = (none, { fs with sidecar := Sidecar.missing }) := by
  have hle : ¬ s.file_size ≤ N := by omega
  simp [load_download_state, cleanup_download_state, hside, hdest, hle]

/-- Witness for C5 with `M = 9`, `N = 4`. -/
theorem load_state_discards_overstated_witness :
    load_download_state
        { sidecar := Sidecar.valid
            { url := "u", destination := "d", downloaded_bytes := 9,
              total_size := 10, file_size := 9 },
          destSize := some 4 } =
      (none, { sidecar := Sidecar.missing, destSize := some 4 }) :=
  load_state_discards_overstated _ _ 4 rfl rfl (by decide)

/-- C8 (counterexample): a `HEAD` reply with the non-success status `300`
and an `accept-ranges: bytes` header makes `supports_range_requests`
return `true` — `raise_for_status` only raises for statuses in
`400..599` — contradicting the claim that `true` is returned only for a
success (2xx) status. -/
theorem supports_range_non_success_true :
    supports_range_requests (some { status := 300, acceptRanges := some "bytes" }) = true := by
  decide

/-- C8 (amended): `supports_range_requests` never raises (it is total),
and it returns `true` exactly when the `HEAD` request completes without
exception, `raise_for_status` accepts the status (it is not in
`400..599`), and the `accept-ranges` value lowercases to `"bytes"`; any
network failure, `4xx`/`5xx` status, or absent/other header yields
`false`. -/
theorem supports_range_characterization (resp : Option HeadResponse) :
    supports_range_requests resp = true ↔
      ∃ r, resp = some r ∧ ¬(400 ≤ r.status ∧ r.status < 600) ∧
        lower_string (r.acceptRanges.getD "") = "bytes" := by
  cases resp with
  | none => simp [supports_range_requests]
  | some r =>
    simp only [supports_range_requests, Option.some.injEq]
    split_ifs with h
    · simp only [Bool.false_eq_true, false_iff]
      rintro ⟨r', rfl, hr', _⟩
      exact hr' h
    · constructor
      · intro hb
        exact ⟨r, rfl, h, by simpa using hb⟩
      · rintro ⟨r', rfl, _, hb⟩
        simpa using hb

/-- C6: the completion path of `_perform_download` performs the final
checkpoint save first in every case; it deletes the checkpoint state and
returns success exactly when the total size is unknown (`0`) or the
bytes written reach it, and it raises the incomplete-download error —
leaving the checkpoint state in place — exactly when the known total
exceeds the bytes written. -/
theorem perform_download_completion_spec (t d : Nat) :
    (perform_download_completion t d).head? = some DlAct.save ∧
    ((DlAct.cleanup ∈ perform_download_completion t d ∧
        DlAct.returnTrue ∈ perform_download_completion t d) ↔ (t = 0 ∨ t ≤ d)) ∧
    ((DlAct.raiseIncomplete ∈ perform_download_completion t d ∧
        DlAct.cleanup ∉ perform_download_completion t d) ↔ (0 < t ∧ d < t)) := by
  by_cases h : 0 < t ∧ d < t <;>
    simp [perform_download_completion, h] <;> omega

/-- Helper: with a transport that fails every attempt, the retry loop
never returns `true`. -/
lemma download_file_go_all_transport (outcomes : Nat → AttemptOutcome) (mr : Nat)
    (h : ∀ i, outcomes i = AttemptOutcome.transportError) :
    ∀ l, (download_file_go outcomes mr l).1 = false := by
  intro l
  induction l with
  | nil => rfl
  | cons a rest ih =>
    simp only [download_file_go, h a]
    split
    · simpa using ih
    · rfl

/-- Helper: the backoff waits recorded over the attempt indices
`range' a b` are `2 ^ a, 2 ^ (a+1), …` for some prefix of those
indices. -/
lemma download_file_go_waits (outcomes : Nat → AttemptOutcome) (mr : Nat) :
    ∀ b a, ∃ k, (download_file_go outcomes mr (List.range' a b)).2 =
      (List.range' a k).map (fun i => 2 ^ i) := by
  intro b
  induction b with
  | zero => exact fun a => ⟨0, rfl⟩
  | succ b ih =>
    intro a
    rw [List.range'_succ]
    cases houtcome : outcomes a with
    | success => exact ⟨0, by simp [download_file_go, houtcome]⟩
    | otherError => exact ⟨0, by simp [download_file_go, houtcome]⟩
    | transportError =>
      by_cases hlt : a < mr - 1
      · obtain ⟨k, hk⟩ := ih (a + 1)
        refine ⟨k + 1, ?_⟩
        simp [download_file_go, houtcome, hlt, List.range'_succ, hk]
      · exact ⟨0, by simp [download_file_go, houtcome, hlt]⟩

/-- C7: `download_file` retries only transport-level failures — a
non-transport failure on the first attempt returns `false` immediately
with no backoff wait; exhausting all attempts on transport failures
yields the return value `false` rather than an exception; the backoff
waits always form the sequence `2^0, 2^1, …` seconds; and with
`maxRetries = 3` and a transport failing the first two attempts then
succeeding, the result is `true` with exactly the two waits `1s, 2s`. -/
theorem download_file_retry_policy :
    (∀ (mr : Nat) (outcomes : Nat → AttemptOutcome), 0 < mr →
        outcomes 0 = AttemptOutcome.otherError →
        download_file mr outcomes = (false, [])) ∧
    (∀ (mr : Nat) (outcomes : Nat → AttemptOutcome),
        (∀ i, outcomes i = AttemptOutcome.transportError) →
        (download_file mr outcomes).1 = false) ∧
    (∀ (mr : Nat) (outcomes : Nat → AttemptOutcome),
        ∃ k, (download_file mr outcomes).2 = (List.range k).map (fun i => 2 ^ i)) ∧
    download_file 3
        (fun i => if i < 2 then AttemptOutcome.transportError else AttemptOutcome.success) =
      (true, [1, 2]) := by
  refine ⟨?_, ?_, ?_, by decide⟩
  · intro mr outcomes hmr h0
    cases mr with
    | zero => omega
    | succ m =>
      rw [download_file, List.range_eq_range', List.range'_succ]
      simp [download_file_go, h0]
  · intro mr outcomes h
    exact download_file_go_all_transport outcomes mr h _
  · intro mr outcomes
    obtain ⟨k, hk⟩ := download_file_go_waits outcomes mr mr 0
    refine ⟨k, ?_⟩
    rw [download_file, List.range_eq_range', hk, List.range_eq_range']

/-- Witness for C7: a non-transport failure aborts at once, and all-
transport failures exhaust the two attempts with result `false`. -/
theorem download_file_retry_policy_witness :
    download_file 1 (fun _ => AttemptOutcome.otherError) = (false, []) ∧
      (download_file 2 (fun _ => AttemptOutcome.transportError)).1 = false :=
  ⟨download_file_retry_policy.1 1 _ (by decide) rfl,
   download_file_retry_policy.2.1 2 _ (fun _ => rfl)⟩

/-- Helper: `load_download_state` never touches the destination file. -/
lemma load_download_state_destSize (fs : FS) :
    ((load_download_state fs).2).destSize = fs.destSize := by
  rcases fs with ⟨side, dsz⟩
  cases side with
  | missing => rfl
  | corrupt => rfl
  | valid s =>
    cases dsz with
    | none => rfl
    | some a =>
      simp only [load_download_state]
      split <;> rfl

/-- C10: a non-empty state is loaded only when the destination file
exists; consequently `_prepare_download` yields a positive resume
position only together with append mode and an existing partial file;
and a valid sidecar without a destination file makes
`load_download_state` return the empty state while leaving the stale
sidecar file untouched on disk. -/
theorem resume_requires_existing_file :
    (∀ (fs : FS) (s : DownloadState),
        (load_download_state fs).1 = some s → fs.destSize.isSome = true) ∧
    (∀ (fs : FS) (url : String),
        0 < (prepare_download fs url).1 →
          (prepare_download fs url).2.1 = Mode.ab ∧ fs.destSize.isSome = true) ∧
    (∀ (fs : FS) (s : DownloadState),
        fs.sidecar = Sidecar.valid s → fs.destSize = none →
          load_download_state fs = (none, fs)) := by
  have hloaded : ∀ (fs : FS) (s : DownloadState),
      (load_download_state fs).1 = some s → fs.destSize.isSome = true := by
    intro fs s h
    rcases fs with ⟨side, dsz⟩
    cases side with
    | missing => simp [load_download_state] at h
    | corrupt => simp [load_download_state] at h
    | valid s0 =>
      cases dsz with
      | none => simp [load_download_state] at h
      | some a => rfl
  refine ⟨hloaded, ?_, ?_⟩
  · intro fs url hpos
    have hdest := load_download_state_destSize fs
    simp only [prepare_download] at hpos ⊢
    cases hload : (load_download_state fs).1 with
    | none =>
      rw [hload] at hpos
      simp at hpos
    | some s =>
      have hsome := hloaded fs s hload
      rw [hload] at hpos
      simp only [hdest, hsome, and_true] at hpos ⊢
      split_ifs at hpos ⊢ with hurl hab
      · rfl
      · exact absurd (by simpa using hpos) hab
      · simp at hpos
  · intro fs s hside hdest
    rcases fs with ⟨side, dsz⟩
    simp_all [load_download_state]

/-- Witness for C10: a valid sidecar recording 3 downloaded bytes whose
destination file is missing loads as the empty state with the sidecar
left in place. -/
theorem resume_requires_existing_file_witness :
    load_download_state
        { sidecar := Sidecar.valid
            { url := "u", destination := "d", downloaded_bytes := 3,
              total_size := 9, file_size := 3 },
          destSize := none } =
      (none,
        { sidecar := Sidecar.valid
            { url := "u", destination := "d", downloaded_bytes := 3,
              total_size := 9, file_size := 3 },
          destSize := none }) :=
  resume_requires_existing_file.2.2 _ _ rfl rfl

/-- Helper: the trace of `run_update` is the trace of its body. -/
lemma run_update_fst (env : Env) (p : Bool) :
    (run_update env p).1 = (update_body env p).1 := by
  rw [run_update]
  cases h : (update_body env p).2 <;> simp [h]

/-- Helper: `run_update` completes normally exactly when its body raises
no exception. -/
lemma run_update_completed (env : Env) (p : Bool) :
    (run_update env p).2 = FnOutcome.completed ↔ (update_body env p).2 = none := by
  rw [run_update]
  cases h : (update_body env p).2 <;> simp [h]

/-- Helper: in a run of the update body that raises no exception with
checksum verification enabled, the trace is exactly: the space check
(when the remote size is known), the archive download, the extraction,
the checksum download, the verification, the publish, and the staging
cleanup, in that order. -/
lemma update_body_success_trace (env : Env) (p : Bool)
    (hc : (update_body env p).2 = none) (hm : env.skipMd5 = false) :
    (update_body env p).1 =
      (if 0 < env.remoteSize then [Ev.spaceCheck] else []) ++
        [Ev.downloadIndex, Ev.extractIndex, Ev.downloadMd5, Ev.verifyChecksum,
         Ev.moveIndex, Ev.clearTemp] := by
  unfold update_body publish_steps at hc ⊢
  rw [hm] at hc ⊢
  by_cases h1 : (env.tempDirExists && !env.rmTempOk) = true
  · rw [if_pos h1] at hc
    exact absurd hc (by simp)
  rw [if_neg h1] at hc ⊢
  by_cases h2 : (!env.resolveOk) = true
  · rw [if_pos h2] at hc
    exact absurd hc (by simp)
  rw [if_neg h2] at hc ⊢
  by_cases h3 : (decide (0 < env.remoteSize) &&
      !check_disk_space_requirements env.remoteSize env.tempAvail env.dataAvail p) = true
  · rw [if_pos h3] at hc
    exact absurd hc (by simp)
  rw [if_neg h3] at hc ⊢
  by_cases h4 : (!env.downloadIndexOk) = true
  · rw [if_pos h4] at hc
    exact absurd hc (by simp)
  rw [if_neg h4] at hc ⊢
  by_cases h5 : (!env.extractOk) = true
  · rw [if_pos h5] at hc
    exact absurd hc (by simp)
  rw [if_neg h5] at hc ⊢
  rw [if_neg (by simp : ¬ (false = true))] at hc ⊢
  by_cases h6 : (!env.downloadMd5Ok) = true
  · rw [if_pos h6] at hc
    exact absurd hc (by simp)
  rw [if_neg h6] at hc ⊢
  by_cases h7 : (!env.checksumOk) = true
  · rw [if_pos h7] at hc
    exact absurd hc (by simp)
  rw [if_neg h7] at hc ⊢
  by_cases h8 : (!env.moveOk) = true
  · rw [if_pos h8] at hc
    exact absurd hc (by simp)
  rw [if_neg h8] at hc ⊢
  split <;> simp [size_check_trace, List.append_assoc]

/-- C2 (counterexample): in a successful parallel update with checksum
verification enabled, extraction of the archive occurs strictly *before*
the checksum download — refuting the claimed order in which checksum
download and verification complete before extraction begins.  (The
sequential variant behaves identically.) -/
theorem update_order_counterexample :
    parallel_update envOk =
      ([Ev.spaceCheck, Ev.downloadIndex, Ev.extractIndex, Ev.downloadMd5,
        Ev.verifyChecksum, Ev.moveIndex, Ev.clearTemp], FnOutcome.completed) ∧
    List.indexOf Ev.extractIndex (parallel_update envOk).1 <
      List.indexOf Ev.downloadMd5 (parallel_update envOk).1 := by
  decide

/-- C2 (amended): in every successful run of either update variant with
checksum verification enabled, the steps occur in the order: space check
(when the remote size is known), then download of the archive, then
extraction of the archive, then download and verification of the
checksum file, then publish (`move_index`), then staging cleanup —
extraction completes before the checksum download begins, and checksum
verification completes before publish. -/
theorem update_success_trace (env : Env) (p : Bool)
    (hc : (run_update env p).2 = FnOutcome.completed)
    (hm : env.skipMd5 = false) :
    (run_update env p).1 =
      (if 0 < env.remoteSize then [Ev.spaceCheck] else []) ++
        [Ev.downloadIndex, Ev.extractIndex, Ev.downloadMd5, Ev.verifyChecksum,
         Ev.moveIndex, Ev.clearTemp] := by
  rw [run_update_fst]
  exact update_body_success_trace env p ((run_update_completed env p).mp hc) hm

/-- Witness for the amended C2 claim at the all-success environment. -/
theorem update_success_trace_witness :
    (run_update envOk true).1 =
      (if 0 < envOk.remoteSize then [Ev.spaceCheck] else []) ++
        [Ev.downloadIndex, Ev.extractIndex, Ev.downloadMd5, Ev.verifyChecksum,
         Ev.moveIndex, Ev.clearTemp] :=
  update_success_trace envOk true (by decide) rfl

/-- C1 (code bug): when the remote size is known and the disk-space
check fails, the raised `InsufficientSpaceError` is caught by the blanket
`except Exception` handler inside the update function itself, which calls
`sys.exit(1)` — so the process terminates with the generic failure code
1, and the dedicated `except InsufficientSpaceError: sys.exit(75)`
handler in `main` never runs, for both the parallel and the sequential
strategy. -/
theorem insufficient_space_exits_generic :
    main envNoSpace
        { forceUpdate := true, strategyParallel := true,
          osNodeDirExists := true, initialDownload := true } =
      ([Ev.spaceCheck], MainOutcome.exited 1) ∧
    main envNoSpace
        { forceUpdate := true, strategyParallel := false,
          osNodeDirExists := true, initialDownload := true } =
      ([Ev.spaceCheck], MainOutcome.exited 1) := by
  decide

end PhotonDocker
